import Mathlib

/-!
# Verification of the LibreOffice OOM stress-test harness

Shallow embedding of the three Python modules of the repository:

* `conversion_with_fixes.py`  — byte-level conversion API (`ConversionWithFixes`)
* `stress_test_runner.py`     — psutil-based stress-test harness (`StressTestRunner`)
* `test_file_generator.py`    — zero-dependency test suite (`TestFileGenerator`)

External effects (the `soffice` child process, the filesystem scratch
directory, wall clocks) are modelled as explicit inputs: a `RunOutcome`
describing how the `subprocess.run` call ended and a record of the PDF
artifacts present in the scratch directory afterwards.  The classification
code, the summary arithmetic, the process-cleanup filters and the CLI exit
gating are translated directly from the source.
-/

namespace Py

/-- Python's built-in `round` on a number: round to the nearest integer,
ties to even. -/
def roundHalfEven (q : ℚ) : ℤ :=
  if q - ⌊q⌋ < 1 / 2 then ⌊q⌋
  else if q - ⌊q⌋ > 1 / 2 then ⌊q⌋ + 1
  else if ⌊q⌋ % 2 = 0 then ⌊q⌋ else ⌊q⌋ + 1

/-- Python's `round(x, ndigits)` with a positive digit count, over exact
rationals. -/
def round_to (ndigits : ℕ) (q : ℚ) : ℚ :=
  (roundHalfEven (q * 10 ^ ndigits) : ℚ) / 10 ^ ndigits

theorem roundHalfEven_le {q : ℚ} {n : ℤ} (h : q ≤ n) : roundHalfEven q ≤ n := by
  have hf : ⌊q⌋ ≤ n := by
    have := Int.floor_le_floor h
    simpa using this
  unfold roundHalfEven
  split
  · exact hf
  · rename_i h1
    push_neg at h1
    have hlt : (⌊q⌋ : ℚ) + 1 / 2 ≤ q := by linarith
    have : (⌊q⌋ : ℚ) < n := by
      have : (n : ℚ) ≥ q := h
      linarith
    have hfn : ⌊q⌋ < n := by exact_mod_cast this
    split
    · omega
    · split <;> omega

theorem le_roundHalfEven {q : ℚ} {n : ℤ} (h : (n : ℚ) ≤ q) : n ≤ roundHalfEven q := by
  have hf : n ≤ ⌊q⌋ := Int.le_floor.mpr h
  unfold roundHalfEven
  split
  · exact hf
  · split
    · omega
    · split <;> omega

/-- `round(q, d)` of a rational in `[0, 100]` stays in `[0, 100]`. -/
theorem round_to_bounds (d : ℕ) {q : ℚ} (h0 : 0 ≤ q) (h1 : q ≤ 100) :
    0 ≤ round_to d q ∧ round_to d q ≤ 100 := by
  have hpow : (0 : ℚ) < 10 ^ d := by positivity
  have hub : q * 10 ^ d ≤ ((100 * 10 ^ d : ℤ) : ℚ) := by
    push_cast
    nlinarith
  have hlb : (((0 : ℤ)) : ℚ) ≤ q * 10 ^ d := by positivity
  have h2 : roundHalfEven (q * 10 ^ d) ≤ 100 * 10 ^ d := roundHalfEven_le hub
  have h3 : (0 : ℤ) ≤ roundHalfEven (q * 10 ^ d) := le_roundHalfEven hlb
  constructor
  · unfold round_to
    apply div_nonneg _ (le_of_lt hpow)
    exact_mod_cast h3
  · unfold round_to
    rw [div_le_iff hpow]
    calc (roundHalfEven (q * 10 ^ d) : ℚ) ≤ ((100 * 10 ^ d : ℤ) : ℚ) := by exact_mod_cast h2
    _ = 100 * 10 ^ d := by push_cast; ring

end Py

/-- A process as seen through `psutil.process_iter(['name', 'cmdline'])`:
its executable name and its command-line arguments. -/
structure Proc where
  name : String
  cmdline : List String
deriving DecidableEq

/-- Whether `pat` occurs as a contiguous sublist of the second argument
(Python's `pat in hay` on strings, over the character lists). -/
def containsSub (pat : List Char) : List Char → Bool
  | [] => pat.isPrefixOf ([] : List Char)
  | c :: rest => pat.isPrefixOf (c :: rest) || containsSub pat rest

/-- Python's substring test `pat in hay`. -/
def strContains (hay pat : String) : Bool :=
  containsSub pat.toList hay.toList

/-- Outcome of the `subprocess.run` call that drives one converter
invocation: it returned normally (with an exit code and captured stderr),
the wall-clock timeout expired (`subprocess.TimeoutExpired`), or some other
exception was raised while establishing or running the process. -/
inductive RunOutcome where
  | completed (exitCode : Int) (stderr : String)
  | timedOut
  | raised (msg : String)
deriving DecidableEq

namespace StressTestRunner

/-- `ConversionResult` dataclass of `stress_test_runner.py` (lines 47-57).
The `timestamp` field (a wall-clock string) is omitted: no claim mentions
it and it is an external clock reading. -/
structure ConversionResult where
  filename : String
  input_size_mb : ℚ
  output_size_kb : ℚ
  status : String
  duration_seconds : ℚ
  error_message : String := ""
  memory_peak_mb : ℚ := 0
deriving DecidableEq

/-- PDF artifacts in the conversion's scratch directory after the child
process ended: the size of the expected `{stem}.pdf` when that file
exists, and the sizes of the files `temp_path.glob("*.pdf")` would list
when it does not. -/
structure FsState where
  expectedPdfSize : Option Nat
  globPdfSizes : List Nat
deriving DecidableEq

/-- `convert_file_to_pdf` (lines 246-373) from the point where
`subprocess.run` has been invoked.  Outcome classification of the source:
the expected artifact existing (of any size, including zero) yields
`"success"` with its size recorded; otherwise any `*.pdf` found by glob
yields `"success"` with the first file's size; no artifact yields
`"failed"` with stderr truncated to 500 characters;
`subprocess.TimeoutExpired` yields `"timeout"` (after
`kill_soffice_processes()`); any other exception yields `"failed"`.  The
child's exit code is never examined. -/
def convert_file_to_pdf (filename : String) (inputSizeMb duration : ℚ)
    (timeout : ℕ) (run : RunOutcome) (fs : FsState) : ConversionResult :=
  match run with
  | .completed _ stderr =>
    match fs.expectedPdfSize with
    | some outputSize =>
      { filename := filename, input_size_mb := inputSizeMb,
        output_size_kb := (outputSize : ℚ) / 1024, status := "success",
        duration_seconds := duration }
    | none =>
      match fs.globPdfSizes with
      | outputSize :: _ =>
        { filename := filename, input_size_mb := inputSizeMb,
          output_size_kb := (outputSize : ℚ) / 1024, status := "success",
          duration_seconds := duration }
      | [] =>
        { filename := filename, input_size_mb := inputSizeMb,
          output_size_kb := 0, status := "failed",
          duration_seconds := duration,
          error_message := "No PDF output. stderr: " ++ stderr.take 500 }
  | .timedOut =>
      { filename := filename, input_size_mb := inputSizeMb,
        output_size_kb := 0, status := "timeout",
        duration_seconds := duration,
        error_message := "Conversion timed out after " ++ toString timeout ++ "s" }
  | .raised msg =>
      { filename := filename, input_size_mb := inputSizeMb,
        output_size_kb := 0, status := "failed",
        duration_seconds := duration, error_message := msg.take 500 }

/-- `kill_soffice_processes` (lines 376-386): the set of processes it
kills — every process whose name is `soffice` or `soffice.bin`, with no
condition on the command line. -/
def kill_soffice_processes (procs : List Proc) : List Proc :=
  procs.filter (fun p => p.name == "soffice" || p.name == "soffice.bin")

/-- `successful` of the summary (line 524). -/
def successful (results : List ConversionResult) : ℕ :=
  (results.filter (fun r => r.status == "success")).length

/-- `failed` of the summary (line 525). -/
def failed (results : List ConversionResult) : ℕ :=
  (results.filter (fun r => r.status == "failed")).length

/-- `timeouts` of the summary (line 526). -/
def timeouts (results : List ConversionResult) : ℕ :=
  (results.filter (fun r => r.status == "timeout")).length

/-- `oom_count` of the summary (line 527); counts `status == "oom"`,
which no code path of the module ever assigns. -/
def oom_count (results : List ConversionResult) : ℕ :=
  (results.filter (fun r => r.status == "oom")).length

/-- Count of `"error"`-status results.  The claims name an `errors`
summary count; `stress_test_runner.py` computes no such count and never
assigns the status. -/
def error_count (results : List ConversionResult) : ℕ :=
  (results.filter (fun r => r.status == "error")).length

/-- Count of `"skipped"`-status results.  The claims name a `skipped`
summary count; `stress_test_runner.py` computes no such count and never
assigns the status. -/
def skipped_count (results : List ConversionResult) : ℕ :=
  (results.filter (fun r => r.status == "skipped")).length

/-- `success_rate` of the summary (line 537):
`round(successful / len(results) * 100, 2) if results else 0`. -/
def success_rate (results : List ConversionResult) : ℚ :=
  if results = [] then 0
  else Py.round_to 2 ((successful results : ℚ) / (results.length : ℚ) * 100)

/-- The CLI exit gating of `main` (lines 666-668): exit code 1 when
`summary["failed"] > 0 or summary["oom_killed"] > 0`, else 0.  The
`timeouts` count is not consulted. -/
def main_exit_code (results : List ConversionResult) : ℕ :=
  if 0 < failed results ∨ 0 < oom_count results then 1 else 0

end StressTestRunner

namespace TestFileGenerator

/-- `ConversionResult` dataclass of `test_file_generator.py`
(lines 440-447). -/
structure ConversionResult where
  filename : String
  input_size_kb : ℚ
  output_size_kb : ℚ
  status : String
  duration_sec : ℚ
  error : String := ""
deriving DecidableEq

/-- `convert_to_pdf` (lines 450-532) from the point where
`subprocess.run` has been invoked.  `globPdfSizes` lists the sizes of
`tmp_path.glob('*.pdf')`.  Any artifact found (of any size) yields
`"success"`; none yields `"failed"`; `subprocess.TimeoutExpired` yields
`"timeout"` with the timeout as duration; any other exception yields
`"error"`.  The exit code is never examined. -/
def convert_to_pdf (filename : String) (inputSizeKb duration : ℚ)
    (timeout : ℕ) (run : RunOutcome) (globPdfSizes : List Nat) :
    ConversionResult :=
  match run with
  | .completed _ stderr =>
    match globPdfSizes with
    | outputSize :: _ =>
      { filename := filename, input_size_kb := inputSizeKb,
        output_size_kb := (outputSize : ℚ) / 1024, status := "success",
        duration_sec := Py.round_to 2 duration }
    | [] =>
      { filename := filename, input_size_kb := inputSizeKb,
        output_size_kb := 0, status := "failed",
        duration_sec := Py.round_to 2 duration,
        error := if stderr ≠ "" then stderr.take 200 else "No PDF output" }
  | .timedOut =>
      { filename := filename, input_size_kb := inputSizeKb,
        output_size_kb := 0, status := "timeout",
        duration_sec := (timeout : ℚ),
        error := "Timed out after " ++ toString timeout ++ "s" }
  | .raised msg =>
      { filename := filename, input_size_kb := inputSizeKb,
        output_size_kb := 0, status := "error",
        duration_sec := duration, error := msg.take 200 }

/-- `success` of the summary (line 689). -/
def success (results : List ConversionResult) : ℕ :=
  (results.filter (fun r => r.status == "success")).length

/-- `failed` of the summary (line 690). -/
def failed (results : List ConversionResult) : ℕ :=
  (results.filter (fun r => r.status == "failed")).length

/-- `timeouts` of the summary (line 691). -/
def timeouts (results : List ConversionResult) : ℕ :=
  (results.filter (fun r => r.status == "timeout")).length

/-- Count of `"error"`-status results, which `convert_to_pdf` can produce
but the summary of `run_stress_test` does not record. -/
def error_count (results : List ConversionResult) : ℕ :=
  (results.filter (fun r => r.status == "error")).length

/-- Count of `"oom"`-status results; never produced by this module. -/
def oom_count (results : List ConversionResult) : ℕ :=
  (results.filter (fun r => r.status == "oom")).length

/-- Count of `"skipped"`-status results; never produced by this module. -/
def skipped_count (results : List ConversionResult) : ℕ :=
  (results.filter (fun r => r.status == "skipped")).length

/-- `success_rate` of the summary (line 698):
`round(success / len(results) * 100, 1) if results else 0`. -/
def success_rate (results : List ConversionResult) : ℚ :=
  if results = [] then 0
  else Py.round_to 1 ((success results : ℚ) / (results.length : ℚ) * 100)

/-- A Python value as stored in the dict returned by `get_memory_info`:
the source only ever stores numbers, but the claim speaks of a string
`"unknown"` source tag, so the value type admits strings. -/
inductive PyVal where
  | num (q : ℚ)
  | str (s : String)
deriving DecidableEq

/-- Lookup in the parsed `/proc/meminfo` dict with a default
(`info.get(key, default)`); the dict is built by successive assignment,
so a later line with the same key overwrites an earlier one. -/
def dictGet (info : List (String × Int)) (key : String) (dflt : Int) : Int :=
  match (info.reverse.find? (fun kv => kv.1 == key)) with
  | some kv => kv.2
  | none => dflt

/-- `get_memory_info` (lines 382-403).  Input: the key/value pairs parsed
from `/proc/meminfo`, or `none` when opening, reading or parsing the file
fails (the bare `except:` catches everything, so the function never
raises).  Output: the returned dict, in insertion order. -/
def get_memory_info (meminfo : Option (List (String × Int))) :
    List (String × PyVal) :=
  match meminfo with
  | none =>
    [("total_mb", .num 0), ("used_mb", .num 0),
     ("available_mb", .num 0), ("percent", .num 0)]
  | some info =>
    let total : ℚ := (dictGet info "MemTotal" 0 : ℚ) / 1024
    let avail : ℚ := (dictGet info "MemAvailable" (dictGet info "MemFree" 0) : ℚ) / 1024
    let used : ℚ := total - avail
    [("total_mb", .num total), ("used_mb", .num used),
     ("available_mb", .num avail),
     ("percent", .num (if 0 < total then Py.round_to 1 (used / total * 100) else 0))]

/-- Key access into the returned dict. -/
def lookupVal (d : List (String × PyVal)) (key : String) : Option PyVal :=
  (d.find? (fun kv => kv.1 == key)).map (fun kv => kv.2)

end TestFileGenerator

namespace ConversionWithFixes

/-- `cleanup_soffice_processes` of `conversion_with_fixes.py`
(lines 128-158), psutil branch: the set of processes it kills.  A process
is killed only when its name is `soffice`/`soffice.bin`, a profile
directory was given (Python truthiness: not `None` and not the empty
string), and some non-empty command-line argument contains that profile
directory as a substring.  With no profile directory nothing is killed
("Don't kill all soffice processes - might be user's").  The
psutil-missing fallback (`pkill -f profile_dir`) is likewise scoped to
the profile directory and is not modelled separately. -/
def cleanup_soffice_processes (profileDir : Option String)
    (procs : List Proc) : List Proc :=
  procs.filter (fun p =>
    (p.name == "soffice" || p.name == "soffice.bin") &&
    (match profileDir with
     | some d => d != "" && p.cmdline.any (fun arg => arg != "" && strContains arg d)
     | none => false))

/-- `b'PK\x03\x04'`, the ZIP local-file-header magic used by the three
format wrappers of `conversion_with_fixes.py` to detect OOXML input. -/
def zipMagic : List Nat := [0x50, 0x4B, 0x03, 0x04]

/-- `document_bytes[:4] == b'PK\x03\x04'` from the wrapper functions;
Python slicing of a shorter byte string yields a shorter slice, which can
never equal the four-byte magic. -/
def isOoxml (documentBytes : List Nat) : Bool :=
  documentBytes.take 4 == zipMagic

/-- Extension chosen by `convert_powerpoint_to_pdf` (lines 332-336). -/
def powerpointExtension (documentBytes : List Nat) : String :=
  if isOoxml documentBytes then "pptx" else "ppt"

/-- Extension chosen by `convert_excel_to_pdf` (lines 364-369). -/
def excelExtension (documentBytes : List Nat) : String :=
  if isOoxml documentBytes then "xlsx" else "xls"

/-- Extension chosen by `convert_word_to_pdf` (lines 397-402). -/
def wordExtension (documentBytes : List Nat) : String :=
  if isOoxml documentBytes then "docx" else "doc"

/-- The `*.pdf` files present in the job's scratch directory after the
converter ran: file name paired with file content, in `glob` order.  The
expected artifact of `convert_document_to_pdf` is named `input.pdf`
(the input is always written as `input.{ext}`). -/
structure ScratchFs where
  pdfFiles : List (String × List Nat)
deriving DecidableEq

/-- The artifact `convert_document_to_pdf` reads: `input.pdf` when that
file exists, else the first entry of `temp_path.glob("*.pdf")`
(lines 276-280). -/
def selectedPdf (fs : ScratchFs) : Option (List Nat) :=
  match (fs.pdfFiles.find? (fun f => f.1 == "input.pdf")).map (fun f => f.2) with
  | some content => some content
  | none => (fs.pdfFiles.head?).map (fun f => f.2)

/-- `convert_document_to_pdf` (lines 161-310), from the point where the
child process has been launched: a timeout raises `RuntimeError` after the
profile-scoped cleanup, any other exception propagates, and on normal
completion the selected artifact is read — raising `RuntimeError` when no
artifact was generated or when the selected artifact is empty, and
returning its (necessarily non-empty) bytes otherwise. -/
def convert_document_to_pdf (run : RunOutcome) (fs : ScratchFs) :
    Except String (List Nat) :=
  match run with
  | .timedOut => .error "Conversion timed out"
  | .raised msg => .error msg
  | .completed _ _ =>
    match selectedPdf fs with
    | none => .error "PDF output file not generated"
    | some pdfBytes =>
      if pdfBytes = [] then .error "Generated PDF is empty"
      else .ok pdfBytes

/-- `convert_powerpoint_to_pdf`: chooses the extension from the magic
bytes and delegates to `convert_document_to_pdf`. -/
def convert_powerpoint_to_pdf (documentBytes : List Nat) (run : RunOutcome)
    (fs : ScratchFs) : String × Except String (List Nat) :=
  (powerpointExtension documentBytes, convert_document_to_pdf run fs)

/-- `convert_excel_to_pdf`: chooses the extension from the magic bytes and
delegates to `convert_document_to_pdf`. -/
def convert_excel_to_pdf (documentBytes : List Nat) (run : RunOutcome)
    (fs : ScratchFs) : String × Except String (List Nat) :=
  (excelExtension documentBytes, convert_document_to_pdf run fs)

/-- `convert_word_to_pdf`: chooses the extension from the magic bytes and
delegates to `convert_document_to_pdf`. -/
def convert_word_to_pdf (documentBytes : List Nat) (run : RunOutcome)
    (fs : ScratchFs) : String × Except String (List Nat) :=
  (wordExtension documentBytes, convert_document_to_pdf run fs)

end ConversionWithFixes

open ConversionWithFixes in
/-- C9: the three format wrappers route by magic bytes: the input is
converted with the OOXML extension (`pptx`/`xlsx`/`docx`) if and only if
its first four bytes equal `b'PK\x03\x04'`; any other input, including
inputs shorter than four bytes, is converted with the legacy extension
(`ppt`/`xls`/`doc`). -/
theorem magic_byte_routing (documentBytes : List Nat) (run : RunOutcome)
    (fs : ScratchFs) :
    ((convert_powerpoint_to_pdf documentBytes run fs).1 = "pptx"
        ↔ documentBytes.take 4 = zipMagic)
    ∧ ((convert_powerpoint_to_pdf documentBytes run fs).1 = "ppt"
        ↔ documentBytes.take 4 ≠ zipMagic)
    ∧ ((convert_excel_to_pdf documentBytes run fs).1 = "xlsx"
        ↔ documentBytes.take 4 = zipMagic)
    ∧ ((convert_excel_to_pdf documentBytes run fs).1 = "xls"
        ↔ documentBytes.take 4 ≠ zipMagic)
    ∧ ((convert_word_to_pdf documentBytes run fs).1 = "docx"
        ↔ documentBytes.take 4 = zipMagic)
    ∧ ((convert_word_to_pdf documentBytes run fs).1 = "doc"
        ↔ documentBytes.take 4 ≠ zipMagic)
    ∧ (documentBytes.length < 4 →
        (convert_powerpoint_to_pdf documentBytes run fs).1 = "ppt"
        ∧ (convert_excel_to_pdf documentBytes run fs).1 = "xls"
        ∧ (convert_word_to_pdf documentBytes run fs).1 = "doc") := by
  have hlen : documentBytes.length < 4 → documentBytes.take 4 ≠ zipMagic := by
    intro h heq
    have : (documentBytes.take 4).length = zipMagic.length := by rw [heq]
    simp [List.length_take, zipMagic] at this
    omega
  constructor
  · simp [convert_powerpoint_to_pdf, powerpointExtension, isOoxml]
  constructor
  · simp [convert_powerpoint_to_pdf, powerpointExtension, isOoxml]
  constructor
  · simp [convert_excel_to_pdf, excelExtension, isOoxml]
  constructor
  · simp [convert_excel_to_pdf, excelExtension, isOoxml]
  constructor
  · simp [convert_word_to_pdf, wordExtension, isOoxml]
  constructor
  · simp [convert_word_to_pdf, wordExtension, isOoxml]
  · intro h
    refine ⟨?_, ?_, ?_⟩ <;>
      simp [convert_powerpoint_to_pdf, convert_excel_to_pdf,
        convert_word_to_pdf, powerpointExtension, excelExtension,
        wordExtension, isOoxml, hlen h]

open ConversionWithFixes in
/-- C10 counterexample: the scratch directory holds an empty `input.pdf`
next to a non-empty `other.pdf`.  The converter did produce a non-empty
PDF artifact in the scratch directory, yet `convert_document_to_pdf`
raises `RuntimeError ("Generated PDF is empty")` instead of returning a
byte string: the claimed "returns iff a non-empty artifact was produced"
equivalence fails. -/
theorem convert_document_nonempty_artifact_cex :
    ((ScratchFs.mk [("input.pdf", []), ("other.pdf", [0x25])]).pdfFiles.any
        (fun f => !f.2.isEmpty)) = true
    ∧ convert_document_to_pdf (.completed 0 "")
        ⟨[("input.pdf", []), ("other.pdf", [0x25])]⟩
      = .error "Generated PDF is empty"
    ∧ ∀ b, convert_document_to_pdf (.completed 0 "")
        ⟨[("input.pdf", []), ("other.pdf", [0x25])]⟩ ≠ .ok b := by
  refine ⟨by decide, rfl, ?_⟩
  intro b h
  simp [convert_document_to_pdf, selectedPdf, List.find?] at h

open ConversionWithFixes in
/-- C10 amended: `convert_document_to_pdf` returns a byte string if and
only if the *selected* artifact — `input.pdf` when present, else the first
`*.pdf` glob entry — exists and is non-empty; the returned bytes are never
empty and are the content of an artifact of the scratch directory; a
timeout or any other exception raises instead of returning. -/
theorem convert_document_returns_iff_selected_nonempty (exitCode : Int)
    (stderr : String) (fs : ScratchFs) (pdfBytes : List Nat) (msg : String) :
    (convert_document_to_pdf (.completed exitCode stderr) fs = .ok pdfBytes
        ↔ selectedPdf fs = some pdfBytes ∧ pdfBytes ≠ [])
    ∧ (convert_document_to_pdf (.completed exitCode stderr) fs = .ok pdfBytes →
        pdfBytes ≠ [] ∧ pdfBytes ∈ fs.pdfFiles.map (fun f => f.2))
    ∧ (∀ b, convert_document_to_pdf .timedOut fs ≠ .ok b)
    ∧ (∀ b, convert_document_to_pdf (.raised msg) fs ≠ .ok b) := by
  have hsel : ∀ b, selectedPdf fs = some b → b ∈ fs.pdfFiles.map (fun f => f.2) := by
    intro b hb
    unfold selectedPdf at hb
    rcases hfind : (fs.pdfFiles.find? (fun f => f.1 == "input.pdf")) with _ | ⟨name, content⟩
    · rw [hfind] at hb
      simp only [Option.map_none'] at hb
      rcases hhead : fs.pdfFiles.head? with _ | entry
      · rw [hhead] at hb; simp at hb
      · rw [hhead] at hb
        simp only [Option.map_some'] at hb
        cases hb
        exact List.mem_map_of_mem _ (List.mem_of_mem_head? hhead)
    · rw [hfind] at hb
      simp only [Option.map_some'] at hb
      cases hb
      exact List.mem_map_of_mem _ (List.mem_of_find?_eq_some hfind)
  have hiff : convert_document_to_pdf (.completed exitCode stderr) fs = .ok pdfBytes
      ↔ selectedPdf fs = some pdfBytes ∧ pdfBytes ≠ [] := by
    unfold convert_document_to_pdf
    rcases h : selectedPdf fs with _ | b
    · simp
    · by_cases hb : b = [] <;> simp [hb] <;> intro h' <;> simp [h'] at hb ⊢ <;> tauto
  refine ⟨hiff, ?_, ?_, ?_⟩
  · intro h
    rcases hiff.mp h with ⟨hs, hne⟩
    exact ⟨hne, hsel _ hs⟩
  · intro b; simp [convert_document_to_pdf]
  · intro b; simp [convert_document_to_pdf]

open ConversionWithFixes in
/-- Witness for the amended C10: a scratch directory holding a single
non-empty `input.pdf` makes the conversion return exactly those bytes. -/
theorem convert_document_returns_witness :
    convert_document_to_pdf (.completed 0 "") ⟨[("input.pdf", [0x25, 0x50])]⟩
      = .ok [0x25, 0x50]
    ∧ [0x25, 0x50] ≠ ([] : List Nat) := by
  refine ⟨?_, by decide⟩
  exact (convert_document_returns_iff_selected_nonempty 0 ""
    ⟨[("input.pdf", [0x25, 0x50])]⟩ [0x25, 0x50] "").1.mpr ⟨by decide, by decide⟩

open ConversionWithFixes in
/-- Witness for C9: on the empty byte string every wrapper picks the
legacy extension, and on a ZIP-magic input every wrapper picks the OOXML
extension. -/
theorem magic_byte_routing_witness :
    (convert_powerpoint_to_pdf [] .timedOut ⟨[]⟩).1 = "ppt"
    ∧ (convert_powerpoint_to_pdf [0x50, 0x4B, 0x03, 0x04] .timedOut ⟨[]⟩).1 = "pptx" := by
  refine ⟨?_, ?_⟩
  · exact ((magic_byte_routing [] .timedOut ⟨[]⟩).2.2.2.2.2.2 (by decide)).1
  · exact (magic_byte_routing [0x50, 0x4B, 0x03, 0x04] .timedOut ⟨[]⟩).1.mpr (by decide)

/-- The outcome classification that §4.2 of the spec (and claim C1)
prescribes for one converter invocation, written from the spec's words
for refinement comparison with `convert_file_to_pdf`: exit code 137 ⇒
OOM-killed; timeout elapsed ⇒ timeout; expected artifact present *and
non-empty* ⇒ success; artifact absent or empty ⇒ failed; any exception ⇒
error. -/
def specClassification (run : RunOutcome) (fs : StressTestRunner.FsState) : String :=
  match run with
  | .completed exitCode _ =>
    if exitCode = 137 then "oom"
    else
      match fs.expectedPdfSize with
      | some size => if 0 < size then "success" else "failed"
      | none =>
        match fs.globPdfSizes with
        | size :: _ => if 0 < size then "success" else "failed"
        | [] => "failed"
  | .timedOut => "timeout"
  | .raised _ => "error"

open StressTestRunner in
/-- C1 counterexample: the converter exits with code 137 (OOM-killed) and
leaves no artifact.  The claim's precedence demands status OOM_KILLED,
but `convert_file_to_pdf` never examines the exit code and records
`"failed"`. -/
theorem convert_status_classification_cex :
    (convert_file_to_pdf "f.pptx" 0 0 120 (.completed 137 "killed") ⟨none, []⟩).status
      = "failed"
    ∧ specClassification (.completed 137 "killed") ⟨none, []⟩ = "oom"
    ∧ ("failed" : String) ≠ "oom" := by
  exact ⟨rfl, rfl, by decide⟩

open StressTestRunner in
/-- C1 amended: the harness classifies without ever examining the exit
code (so no OOM_KILLED status is ever produced): timeout ⇒ `"timeout"`;
any other exception ⇒ `"failed"` in `stress_test_runner.py` and
`"error"` in `test_file_generator.py`; a completed invocation is
`"success"` exactly when some artifact file exists — even an empty one —
and `"failed"` (with truncated stderr) when none exists. -/
theorem convert_status_classification (filename : String)
    (inputSizeMb duration inputSizeKb : ℚ) (timeout : ℕ)
    (exitCode exitCode' : Int) (stderr msg : String) (fs : FsState)
    (globSizes : List Nat) :
    ((convert_file_to_pdf filename inputSizeMb duration timeout
        (.completed exitCode stderr) fs).status
      = (convert_file_to_pdf filename inputSizeMb duration timeout
        (.completed exitCode' stderr) fs).status)
    ∧ ((convert_file_to_pdf filename inputSizeMb duration timeout
        (.completed exitCode stderr) fs).status = "success"
      ↔ fs.expectedPdfSize ≠ none ∨ fs.globPdfSizes ≠ [])
    ∧ (convert_file_to_pdf filename inputSizeMb duration timeout
        .timedOut fs).status = "timeout"
    ∧ (convert_file_to_pdf filename inputSizeMb duration timeout
        (.raised msg) fs).status = "failed"
    ∧ (TestFileGenerator.convert_to_pdf filename inputSizeKb duration timeout
        (.raised msg) globSizes).status = "error"
    ∧ (∀ run fs2, (convert_file_to_pdf filename inputSizeMb duration timeout
        run fs2).status ≠ "oom") := by
  refine ⟨?_, ?_, rfl, rfl, rfl, ?_⟩
  · rcases fs with ⟨_ | size, globSizes⟩ <;> cases globSizes <;> rfl
  · rcases fs with ⟨_ | size, globSizes⟩ <;> cases globSizes <;>
      simp [convert_file_to_pdf]
  · intro run fs2
    rcases run with ⟨ec, st⟩ | _ | m <;>
      rcases fs2 with ⟨_ | size, globSizes2⟩ <;>
      cases globSizes2 <;> simp [convert_file_to_pdf]

open StressTestRunner in
/-- Witness for the amended C1: concrete instantiation — exit codes 0 and
137 with an existing 10-byte artifact both classify as `"success"`. -/
theorem convert_status_classification_witness :
    (convert_file_to_pdf "f.pptx" 0 0 120 (.completed 0 "") ⟨some 10, []⟩).status
      = (convert_file_to_pdf "f.pptx" 0 0 120 (.completed 137 "") ⟨some 10, []⟩).status
    ∧ (convert_file_to_pdf "f.pptx" 0 0 120 (.completed 0 "") ⟨some 10, []⟩).status
      = "success" := by
  refine ⟨(convert_status_classification "f.pptx" 0 0 0 120 0 137 "" "" ⟨some 10, []⟩ []).1, ?_⟩
  exact (convert_status_classification "f.pptx" 0 0 0 120 0 137 "" "" ⟨some 10, []⟩ []).2.1.mpr
    (by exact Or.inl (by decide))

open StressTestRunner in
/-- C2 counterexample: a run whose only job timed out.  The claim demands
a nonzero process exit code, but `main` gates only on
`summary["failed"]` and `summary["oom_killed"]`, so the exit code is 0. -/
theorem exit_code_timeouts_cex :
    timeouts [convert_file_to_pdf "a.pptx" 1 5 120 .timedOut ⟨none, []⟩] = 1
    ∧ failed [convert_file_to_pdf "a.pptx" 1 5 120 .timedOut ⟨none, []⟩] = 0
    ∧ oom_count [convert_file_to_pdf "a.pptx" 1 5 120 .timedOut ⟨none, []⟩] = 0
    ∧ main_exit_code [convert_file_to_pdf "a.pptx" 1 5 120 .timedOut ⟨none, []⟩] = 0 := by
  refine ⟨rfl, rfl, rfl, ?_⟩
  simp [main_exit_code, failed, oom_count, convert_file_to_pdf]

open StressTestRunner in
/-- C2 amended: the CLI exit code is nonzero if and only if at least one
job failed or was OOM-killed; timed-out jobs do not influence it —
prepending a timeout result leaves the exit code unchanged. -/
theorem exit_code_gating (results : List ConversionResult) (filename : String)
    (inputSizeMb duration : ℚ) (timeout : ℕ) (fs : FsState) :
    (main_exit_code results = 0 ↔ failed results = 0 ∧ oom_count results = 0)
    ∧ main_exit_code
        (convert_file_to_pdf filename inputSizeMb duration timeout .timedOut fs
          :: results)
      = main_exit_code results := by
  constructor
  · unfold main_exit_code
    split <;> rename_i h
    · omega
    · push_neg at h; omega
  · unfold main_exit_code failed oom_count
    simp [List.filter_cons, convert_file_to_pdf]

open StressTestRunner in
/-- Witness for the amended C2: the empty run exits 0, and a run of one
timeout result still exits 0. -/
theorem exit_code_gating_witness :
    main_exit_code ([] : List ConversionResult) = 0
    ∧ main_exit_code [convert_file_to_pdf "a.pptx" 1 5 120 .timedOut ⟨none, []⟩]
      = main_exit_code ([] : List ConversionResult) := by
  refine ⟨?_, (exit_code_gating [] "a.pptx" 1 5 120 ⟨none, []⟩).2⟩
  exact (exit_code_gating [] "a.pptx" 1 5 120 ⟨none, []⟩).1.mpr ⟨rfl, rfl⟩

open StressTestRunner in
/-- C3 counterexample: the converter leaves an *empty* expected artifact.
`convert_file_to_pdf` records status `"success"` with output size 0,
refuting "status = SUCCESS iff output size > 0". -/
theorem success_zero_output_cex :
    (convert_file_to_pdf "f.pptx" 0 0 120 (.completed 0 "") ⟨some 0, []⟩).status
      = "success"
    ∧ (convert_file_to_pdf "f.pptx" 0 0 120 (.completed 0 "") ⟨some 0, []⟩).output_size_kb
      = 0
    ∧ ¬ (0 : ℚ) < (convert_file_to_pdf "f.pptx" 0 0 120 (.completed 0 "")
        ⟨some 0, []⟩).output_size_kb := by
  refine ⟨rfl, ?_, ?_⟩ <;> simp [convert_file_to_pdf]

open StressTestRunner in
/-- C3 amended: every non-success result records output size 0
(equivalently, a positive recorded output size implies status
`"success"`), in both modules; but a success may record output size 0
when the artifact file exists and is empty, so the converse fails. -/
theorem output_size_status (filename : String)
    (inputSizeMb duration inputSizeKb : ℚ) (timeout : ℕ) (run : RunOutcome)
    (fs : FsState) (globSizes : List Nat) :
    ((convert_file_to_pdf filename inputSizeMb duration timeout run fs).status
        ≠ "success" →
      (convert_file_to_pdf filename inputSizeMb duration timeout run fs).output_size_kb
        = 0)
    ∧ (0 < (convert_file_to_pdf filename inputSizeMb duration timeout run
          fs).output_size_kb →
      (convert_file_to_pdf filename inputSizeMb duration timeout run fs).status
        = "success")
    ∧ ((TestFileGenerator.convert_to_pdf filename inputSizeKb duration timeout run
          globSizes).status ≠ "success" →
      (TestFileGenerator.convert_to_pdf filename inputSizeKb duration timeout run
          globSizes).output_size_kb = 0)
    ∧ (0 < (TestFileGenerator.convert_to_pdf filename inputSizeKb duration timeout
          run globSizes).output_size_kb →
      (TestFileGenerator.convert_to_pdf filename inputSizeKb duration timeout run
          globSizes).status = "success") := by
  rcases run with ⟨ec, st⟩ | _ | m <;>
    rcases fs with ⟨_ | size, fsGlob⟩ <;>
    cases fsGlob <;> cases globSizes <;>
    simp [convert_file_to_pdf, TestFileGenerator.convert_to_pdf]

open StressTestRunner in
/-- Witness for the amended C3: a failed conversion (no artifact) records
output size 0. -/
theorem output_size_status_witness :
    (convert_file_to_pdf "f.pptx" 0 0 120 (.completed 1 "err") ⟨none, []⟩).status
      ≠ "success"
    ∧ (convert_file_to_pdf "f.pptx" 0 0 120 (.completed 1 "err")
        ⟨none, []⟩).output_size_kb = 0 := by
  refine ⟨by decide, ?_⟩
  exact (output_size_status "f.pptx" 0 0 0 120 (.completed 1 "err") ⟨none, []⟩ []).1
    (by decide)

open StressTestRunner in
/-- C4 counterexample: on timeout the stress-test harness calls
`kill_soffice_processes()`, which kills *every* process named
`soffice`/`soffice.bin` — here one whose command line references a
different job's profile directory and does not mention the timed-out
job's profile `profile_0a1b2c3d` at all. -/
theorem timeout_blanket_kill_cex :
    kill_soffice_processes
        [⟨"soffice", ["-env:UserInstallation=file:///tmp/lo_y/profile_cafebabe"]⟩]
      = [⟨"soffice", ["-env:UserInstallation=file:///tmp/lo_y/profile_cafebabe"]⟩]
    ∧ (["-env:UserInstallation=file:///tmp/lo_y/profile_cafebabe"].any
        (fun arg => strContains arg "profile_0a1b2c3d")) = false := by
  constructor
  · rfl
  · decide

/-- C4 amended: only `conversion_with_fixes.py`'s timeout path is
profile-scoped — `cleanup_soffice_processes` kills a process only when
some command-line argument contains the job's profile directory, and
kills nothing when no profile directory is given; the stress-test
harness's `kill_soffice_processes`, called on its timeout path, instead
kills every process named `soffice`, regardless of profile. -/
theorem profile_scoped_cleanup (profileDir : String) (procs : List Proc) :
    (∀ p ∈ ConversionWithFixes.cleanup_soffice_processes (some profileDir) procs,
        (p.name = "soffice" ∨ p.name = "soffice.bin")
        ∧ ∃ arg ∈ p.cmdline, strContains arg profileDir = true)
    ∧ ConversionWithFixes.cleanup_soffice_processes none procs = []
    ∧ (∀ p ∈ procs, p.name = "soffice" →
        p ∈ StressTestRunner.kill_soffice_processes procs) := by
  refine ⟨?_, ?_, ?_⟩
  · intro p hp
    rw [ConversionWithFixes.cleanup_soffice_processes, List.mem_filter] at hp
    obtain ⟨_, hcond⟩ := hp
    simp only [Bool.and_eq_true, Bool.or_eq_true, beq_iff_eq, bne_iff_ne,
      List.any_eq_true] at hcond
    obtain ⟨hname, _, arg, hargmem, _, hsub⟩ := hcond
    exact ⟨hname, arg, hargmem, hsub⟩
  · rw [ConversionWithFixes.cleanup_soffice_processes]
    apply List.filter_eq_nil.mpr
    intro p _
    simp
  · intro p hp hname
    rw [StressTestRunner.kill_soffice_processes, List.mem_filter]
    exact ⟨hp, by simp [hname]⟩

/-- Witness for the amended C4: a process whose command line mentions the
job profile `profile_abc` is in the profile-scoped kill set, and the
scoped condition indeed holds of it. -/
theorem profile_scoped_cleanup_witness :
    (Proc.mk "soffice" ["-env:UserInstallation=file:///tmp/profile_abc"]).name
      = "soffice"
    ∧ ∃ arg ∈ (Proc.mk "soffice"
        ["-env:UserInstallation=file:///tmp/profile_abc"]).cmdline,
        strContains arg "profile_abc" = true := by
  have h := (profile_scoped_cleanup "profile_abc"
    [⟨"soffice", ["-env:UserInstallation=file:///tmp/profile_abc"]⟩]).1
    ⟨"soffice", ["-env:UserInstallation=file:///tmp/profile_abc"]⟩
    (by decide)
  refine ⟨?_, h.2⟩
  rcases h.1 with h1 | h1 <;> simp_all

open StressTestRunner in
/-- Statuses `convert_file_to_pdf` can produce: exactly `"success"`,
`"failed"` or `"timeout"` (never `"oom"`, `"error"` or `"skipped"`). -/
theorem runner_status_range (filename : String) (inputSizeMb duration : ℚ)
    (timeout : ℕ) (run : RunOutcome) (fs : FsState) :
    (convert_file_to_pdf filename inputSizeMb duration timeout run fs).status
      = "success"
    ∨ (convert_file_to_pdf filename inputSizeMb duration timeout run fs).status
      = "failed"
    ∨ (convert_file_to_pdf filename inputSizeMb duration timeout run fs).status
      = "timeout" := by
  rcases run with ⟨ec, st⟩ | _ | m <;>
    rcases fs with ⟨_ | size, globSizes⟩ <;> cases globSizes <;>
    simp [convert_file_to_pdf]

open TestFileGenerator in
/-- Statuses `convert_to_pdf` of `test_file_generator.py` can produce:
exactly `"success"`, `"failed"`, `"timeout"` or `"error"`. -/
theorem generator_status_range (filename : String) (inputSizeKb duration : ℚ)
    (timeout : ℕ) (run : RunOutcome) (globSizes : List Nat) :
    (convert_to_pdf filename inputSizeKb duration timeout run globSizes).status
      = "success"
    ∨ (convert_to_pdf filename inputSizeKb duration timeout run globSizes).status
      = "failed"
    ∨ (convert_to_pdf filename inputSizeKb duration timeout run globSizes).status
      = "timeout"
    ∨ (convert_to_pdf filename inputSizeKb duration timeout run globSizes).status
      = "error" := by
  rcases run with ⟨ec, st⟩ | _ | m <;> cases globSizes <;>
    simp [convert_to_pdf]

/-- C5: for every list of recorded results — each produced by the
conversion routine of its module — the six per-status counts are
exhaustive and disjoint: successful + failed + timeouts + oom_killed +
errors + skipped equals the total recorded in the summary
(`len(results)`); in both `stress_test_runner.py` and
`test_file_generator.py`. -/
theorem status_counts_partition :
    (∀ results : List StressTestRunner.ConversionResult,
      (∀ r ∈ results, ∃ fn isz dur tmo run fs,
          r = StressTestRunner.convert_file_to_pdf fn isz dur tmo run fs) →
      StressTestRunner.successful results + StressTestRunner.failed results
        + StressTestRunner.timeouts results + StressTestRunner.oom_count results
        + StressTestRunner.error_count results
        + StressTestRunner.skipped_count results
        = results.length)
    ∧ (∀ results : List TestFileGenerator.ConversionResult,
      (∀ r ∈ results, ∃ fn isz dur tmo run globSizes,
          r = TestFileGenerator.convert_to_pdf fn isz dur tmo run globSizes) →
      TestFileGenerator.success results + TestFileGenerator.failed results
        + TestFileGenerator.timeouts results + TestFileGenerator.oom_count results
        + TestFileGenerator.error_count results
        + TestFileGenerator.skipped_count results
        = results.length) := by
  constructor
  · intro results h
    induction results with
    | nil =>
      simp [StressTestRunner.successful, StressTestRunner.failed,
        StressTestRunner.timeouts, StressTestRunner.oom_count,
        StressTestRunner.error_count, StressTestRunner.skipped_count]
    | cons r rs ih =>
      obtain ⟨fn, isz, dur, tmo, run, fs, rfl⟩ := h _ (List.mem_cons_self _ _)
      have ih' := ih (fun x hx => h x (List.mem_cons_of_mem _ hx))
      rcases runner_status_range fn isz dur tmo run fs with hs | hs | hs <;>
        simp [StressTestRunner.successful, StressTestRunner.failed,
          StressTestRunner.timeouts, StressTestRunner.oom_count,
          StressTestRunner.error_count, StressTestRunner.skipped_count,
          List.filter_cons, hs] at ih' ⊢ <;>
        omega
  · intro results h
    induction results with
    | nil =>
      simp [TestFileGenerator.success, TestFileGenerator.failed,
        TestFileGenerator.timeouts, TestFileGenerator.oom_count,
        TestFileGenerator.error_count, TestFileGenerator.skipped_count]
    | cons r rs ih =>
      obtain ⟨fn, isz, dur, tmo, run, globSizes, rfl⟩ := h _ (List.mem_cons_self _ _)
      have ih' := ih (fun x hx => h x (List.mem_cons_of_mem _ hx))
      rcases generator_status_range fn isz dur tmo run globSizes with
        hs | hs | hs | hs <;>
        simp [TestFileGenerator.success, TestFileGenerator.failed,
          TestFileGenerator.timeouts, TestFileGenerator.oom_count,
          TestFileGenerator.error_count, TestFileGenerator.skipped_count,
          List.filter_cons, hs] at ih' ⊢ <;>
        omega

open StressTestRunner in
/-- Witness for C5: a concrete two-job run (one success, one timeout) has
counts 1 + 0 + 1 + 0 + 0 + 0 = 2. -/
theorem status_counts_partition_witness :
    successful
        [convert_file_to_pdf "a" 0 0 120 (.completed 0 "") ⟨some 9, []⟩,
         convert_file_to_pdf "b" 0 0 120 .timedOut ⟨none, []⟩]
      + failed
        [convert_file_to_pdf "a" 0 0 120 (.completed 0 "") ⟨some 9, []⟩,
         convert_file_to_pdf "b" 0 0 120 .timedOut ⟨none, []⟩]
      + timeouts
        [convert_file_to_pdf "a" 0 0 120 (.completed 0 "") ⟨some 9, []⟩,
         convert_file_to_pdf "b" 0 0 120 .timedOut ⟨none, []⟩]
      + oom_count
        [convert_file_to_pdf "a" 0 0 120 (.completed 0 "") ⟨some 9, []⟩,
         convert_file_to_pdf "b" 0 0 120 .timedOut ⟨none, []⟩]
      + error_count
        [convert_file_to_pdf "a" 0 0 120 (.completed 0 "") ⟨some 9, []⟩,
         convert_file_to_pdf "b" 0 0 120 .timedOut ⟨none, []⟩]
      + skipped_count
        [convert_file_to_pdf "a" 0 0 120 (.completed 0 "") ⟨some 9, []⟩,
         convert_file_to_pdf "b" 0 0 120 .timedOut ⟨none, []⟩]
      = 2 :=
  status_counts_partition.1
    [convert_file_to_pdf "a" 0 0 120 (.completed 0 "") ⟨some 9, []⟩,
     convert_file_to_pdf "b" 0 0 120 .timedOut ⟨none, []⟩]
    (by
      intro r hr
      rw [List.mem_cons] at hr
      rcases hr with h | hr2
      · exact ⟨"a", 0, 0, 120, .completed 0 "", ⟨some 9, []⟩, h⟩
      · rw [List.mem_cons] at hr2
        rcases hr2 with h | h
        · exact ⟨"b", 0, 0, 120, .timedOut, ⟨none, []⟩, h⟩
        · exact absurd h (List.not_mem_nil r))

theorem rate_bound_aux {s n : ℕ} (hn : 0 < n) (hsn : s ≤ n) :
    0 ≤ ((s : ℚ) / (n : ℚ) * 100) ∧ ((s : ℚ) / (n : ℚ) * 100) ≤ 100 := by
  have hnq : (0 : ℚ) < (n : ℚ) := by exact_mod_cast hn
  have hsq : (s : ℚ) ≤ (n : ℚ) := by exact_mod_cast hsn
  constructor
  · positivity
  · have h1 : (s : ℚ) / (n : ℚ) ≤ 1 := (div_le_one hnq).mpr hsq
    nlinarith

open StressTestRunner in
/-- C6 counterexample: a three-job run with one success.  The claim's
formula gives `1 / 3 * 100 = 100 / 3`, but the code stores the
two-decimal rounding `round(100 / 3, 2) = 33.33`, which differs. -/
theorem success_rate_rounding_cex :
    success_rate
        [convert_file_to_pdf "a" 0 0 120 (.completed 0 "") ⟨some 1, []⟩,
         convert_file_to_pdf "b" 0 0 120 (.completed 0 "") ⟨none, []⟩,
         convert_file_to_pdf "c" 0 0 120 (.completed 0 "") ⟨none, []⟩]
      = 3333 / 100
    ∧ (successful
        [convert_file_to_pdf "a" 0 0 120 (.completed 0 "") ⟨some 1, []⟩,
         convert_file_to_pdf "b" 0 0 120 (.completed 0 "") ⟨none, []⟩,
         convert_file_to_pdf "c" 0 0 120 (.completed 0 "") ⟨none, []⟩] : ℚ)
        / 3 * 100 = 100 / 3
    ∧ (3333 / 100 : ℚ) ≠ 100 / 3 := by
  have hsucc : successful
      [convert_file_to_pdf "a" 0 0 120 (.completed 0 "") ⟨some 1, []⟩,
       convert_file_to_pdf "b" 0 0 120 (.completed 0 "") ⟨none, []⟩,
       convert_file_to_pdf "c" 0 0 120 (.completed 0 "") ⟨none, []⟩] = 1 := rfl
  have hfl : ⌊(10000 / 3 : ℚ)⌋ = 3333 := by
    rw [Int.floor_eq_iff]
    constructor <;> norm_num
  refine ⟨?_, ?_, by norm_num⟩
  · rw [success_rate, if_neg (by simp), hsucc]
    have harg : ((1 : ℕ) : ℚ) / (([convert_file_to_pdf "a" 0 0 120 (.completed 0 "")
        ⟨some 1, []⟩, convert_file_to_pdf "b" 0 0 120 (.completed 0 "") ⟨none, []⟩,
        convert_file_to_pdf "c" 0 0 120 (.completed 0 "") ⟨none, []⟩].length : ℕ) : ℚ)
        * 100 = 100 / 3 := by
      norm_num
    rw [harg, Py.round_to, show ((100 : ℚ) / 3 * 10 ^ 2) = 10000 / 3 by norm_num,
      Py.roundHalfEven, hfl]
    norm_num
  · rw [hsucc]
    norm_num

open StressTestRunner in
/-- C6 amended: the recorded success rate equals
`successful / total * 100` *rounded* (to two decimals in
`stress_test_runner.py`, one in `test_file_generator.py`); it always lies
in `[0, 100]` and is exactly `0` when the result list is empty — the
division is never performed with a zero total. -/
theorem success_rate_bounds (results : List ConversionResult)
    (gresults : List TestFileGenerator.ConversionResult) :
    (0 ≤ success_rate results ∧ success_rate results ≤ 100)
    ∧ (results = [] → success_rate results = 0)
    ∧ (results ≠ [] → success_rate results
        = Py.round_to 2 ((successful results : ℚ) / (results.length : ℚ) * 100))
    ∧ (0 ≤ TestFileGenerator.success_rate gresults
        ∧ TestFileGenerator.success_rate gresults ≤ 100)
    ∧ (gresults = [] → TestFileGenerator.success_rate gresults = 0)
    ∧ (gresults ≠ [] → TestFileGenerator.success_rate gresults
        = Py.round_to 1
            ((TestFileGenerator.success gresults : ℚ) / (gresults.length : ℚ) * 100)) := by
  refine ⟨?_, ?_, ?_, ?_, ?_, ?_⟩
  · rw [success_rate]
    split
    · norm_num
    · rename_i hne
      have hn : 0 < results.length := List.length_pos.mpr hne
      have hs : successful results ≤ results.length := List.length_filter_le _ _
      obtain ⟨h0, h1⟩ := rate_bound_aux hn hs
      exact Py.round_to_bounds 2 h0 h1
  · intro h; rw [success_rate, if_pos h]
  · intro h; rw [success_rate, if_neg h]
  · rw [TestFileGenerator.success_rate]
    split
    · norm_num
    · rename_i hne
      have hn : 0 < gresults.length := List.length_pos.mpr hne
      have hs : TestFileGenerator.success gresults ≤ gresults.length :=
        List.length_filter_le _ _
      obtain ⟨h0, h1⟩ := rate_bound_aux hn hs
      exact Py.round_to_bounds 1 h0 h1
  · intro h; rw [TestFileGenerator.success_rate, if_pos h]
  · intro h; rw [TestFileGenerator.success_rate, if_neg h]

open StressTestRunner in
/-- Witness for the amended C6: the empty run's success rate is exactly 0
(in both modules) and in range. -/
theorem success_rate_bounds_witness :
    success_rate ([] : List ConversionResult) = 0
    ∧ TestFileGenerator.success_rate ([] : List TestFileGenerator.ConversionResult) = 0
    ∧ 0 ≤ success_rate ([] : List ConversionResult) := by
  refine ⟨(success_rate_bounds [] []).2.1 rfl, ?_, (success_rate_bounds [] []).1.1⟩
  exact (success_rate_bounds ([] : List ConversionResult) []).2.2.2.2.1 rfl

open TestFileGenerator in
/-- C7 counterexample: on total read failure `get_memory_info` returns
the zero-valued dict, but that snapshot carries *no* source tag at all —
in particular its `source` entry is not `"unknown"` as the claim
states. -/
theorem memory_probe_source_tag_cex :
    lookupVal (get_memory_info none) "source" = none
    ∧ (none : Option PyVal) ≠ some (.str "unknown")
    ∧ get_memory_info none
      = [("total_mb", .num 0), ("used_mb", .num 0),
         ("available_mb", .num 0), ("percent", .num 0)] := by
  exact ⟨rfl, by simp, rfl⟩

open TestFileGenerator in
/-- C7 amended: `get_memory_info` is total — the bare `except:` catches
every read/parse failure — and on total read failure it returns the
zero-valued snapshot `{total_mb: 0, used_mb: 0, available_mb: 0,
percent: 0}`; no snapshot it ever returns carries a source tag. -/
theorem memory_probe_failsafe :
    get_memory_info none
      = [("total_mb", .num 0), ("used_mb", .num 0),
         ("available_mb", .num 0), ("percent", .num 0)]
    ∧ (∀ meminfo, lookupVal (get_memory_info meminfo) "source" = none)
    ∧ (∀ meminfo, (get_memory_info meminfo).map (fun kv => kv.1)
        = ["total_mb", "used_mb", "available_mb", "percent"]) := by
  refine ⟨rfl, ?_, ?_⟩
  · intro meminfo
    rcases meminfo with _ | info <;> rfl
  · intro meminfo
    rcases meminfo with _ | info <;> rfl

namespace EscalationController

/-- Modelled from the spec: terminal reason of the escalation loop
(§4.5 / §9: one terminal-reason enum `OOM`, `CAP_REACHED`,
`EXHAUSTED`). -/
inductive StopReason where
  | oom
  | capReached
  | exhausted
deriving DecidableEq

/-- Modelled from the spec: one concurrency value tested together with
the batch results produced at that level (§3, `EscalationLevel`; results
abbreviated to their status strings). -/
structure EscalationLevel where
  concurrency : ℕ
  results : List String
deriving DecidableEq

/-- Modelled from the spec: the repository's `src/` contains no
Escalation Controller implementation (claim C8 cites only spec
sentences), so §4.5's state machine is embedded from the spec's words:
begin at `current = start`; repeat { run one batch via the Job Scheduler
at `current` concurrency (its result statuses given by the oracle
`batchAt current`); record an `EscalationLevel`; if any result in the
batch is `OOM_KILLED`, stop (terminal: OOM); if the Memory Monitor's cap
signal (`capAt current`) is set, stop (terminal: cap-reached); else if
`current < max`, set `current += step` and continue; else stop
(terminal: exhausted) }.  `fuel` bounds the recursion; any fuel large
enough for the run is equivalent. -/
def escalate (batchAt : ℕ → List String) (capAt : ℕ → Bool)
    (maxConc step : ℕ) : ℕ → ℕ → List EscalationLevel × StopReason
  | 0, _ => ([], .exhausted)
  | fuel + 1, current =>
    let batch := batchAt current
    if batch.any (fun s => s == "oom_killed") then
      ([⟨current, batch⟩], .oom)
    else if capAt current then
      ([⟨current, batch⟩], .capReached)
    else if current < maxConc then
      let rest := escalate batchAt capAt maxConc step fuel (current + step)
      (⟨current, batch⟩ :: rest.1, rest.2)
    else
      ([⟨current, batch⟩], .exhausted)

/-- No level before the last recorded one contains an `OOM_KILLED`
result: the loop stopped no later than the first OOM level. -/
def noOomBeforeLast : List EscalationLevel → Bool
  | [] => true
  | lvl :: rest =>
    if rest.isEmpty then true
    else (!lvl.results.any (fun s => s == "oom_killed")) && noOomBeforeLast rest

end EscalationController

open EscalationController in
/-- C8 counterexample (spec-modelled): with `start = 1`, `step = 2`,
`max = 2` and no OOM anywhere, the spec's own state machine runs the
first batch at 1, then — since `1 < max` — sets `current := 1 + 2 = 3`
and runs a batch at concurrency 3, exceeding `max = 2`.  "Never runs a
batch at a concurrency level exceeding max" is false for this input
configuration. -/
theorem escalation_exceeds_max_cex :
    (escalate (fun _ => []) (fun _ => false) 2 2 10 1).1
      = [⟨1, []⟩, ⟨3, []⟩]
    ∧ (⟨3, []⟩ : EscalationLevel) ∈ (escalate (fun _ => []) (fun _ => false) 2 2 10 1).1
    ∧ 2 < 3 := by
  refine ⟨rfl, ?_, by decide⟩
  rw [show (escalate (fun _ => []) (fun _ => false) 2 2 10 1).1
    = [⟨1, []⟩, ⟨3, []⟩] from rfl]
  simp

open EscalationController in
/-- C8 amended: every recorded level's concurrency is either the start
value or strictly below `max + step` (so `max` itself can be overshot by
up to `step - 1`, and by the first batch when `start > max`); and the
loop always stops at the first level whose batch contains an
`OOM_KILLED` result, with terminal reason OOM. -/
theorem escalation_stop_properties (batchAt : ℕ → List String)
    (capAt : ℕ → Bool) (maxConc step fuel start : ℕ) :
    (∀ lvl ∈ (escalate batchAt capAt maxConc step fuel start).1,
        lvl.concurrency = start ∨ lvl.concurrency < maxConc + step)
    ∧ noOomBeforeLast (escalate batchAt capAt maxConc step fuel start).1 = true
    ∧ (∀ lvl ∈ (escalate batchAt capAt maxConc step fuel start).1,
        lvl.results.any (fun s => s == "oom_killed") = true →
          (escalate batchAt capAt maxConc step fuel start).2 = .oom) := by
  induction fuel generalizing start with
  | zero => simp [escalate, noOomBeforeLast]
  | succ fuel ih =>
    rw [escalate]
    by_cases hoom : (batchAt start).any (fun s => s == "oom_killed")
    · simp only [hoom, if_true]
      refine ⟨?_, rfl, fun lvl _ _ => trivial⟩
      intro lvl hlvl
      rw [List.mem_singleton] at hlvl
      subst hlvl
      exact Or.inl rfl
    · rw [Bool.not_eq_true] at hoom
      simp only [hoom, Bool.false_eq_true, if_false]
      by_cases hcap : capAt start = true
      · simp only [hcap, if_true]
        refine ⟨?_, rfl, ?_⟩
        · intro lvl hlvl
          rw [List.mem_singleton] at hlvl
          subst hlvl
          exact Or.inl rfl
        · intro lvl hlvl hany
          rw [List.mem_singleton] at hlvl
          subst hlvl
          rw [hoom] at hany
          exact absurd hany (by simp)
      · simp only [hcap, Bool.false_eq_true, if_false]
        by_cases hlt : start < maxConc
        · simp only [hlt, if_true]
          obtain ⟨ihBound, ihNoOom, ihReason⟩ := ih (start + step)
          refine ⟨?_, ?_, ?_⟩
          · intro lvl hlvl
            rw [List.mem_cons] at hlvl
            rcases hlvl with h | h
            · subst h
              exact Or.inl rfl
            · rcases ihBound lvl h with hc | hc
              · right
                rw [hc]
                omega
              · exact Or.inr hc
          · cases hrest : (escalate batchAt capAt maxConc step fuel (start + step)).1 with
            | nil => simp [noOomBeforeLast]
            | cons lvl2 rest2 =>
              rw [hrest] at ihNoOom
              simp only [noOomBeforeLast, List.isEmpty_cons, Bool.false_eq_true,
                if_false, Bool.and_eq_true, Bool.not_eq_true']
              exact ⟨hoom, ihNoOom⟩
          · intro lvl hlvl hany
            rw [List.mem_cons] at hlvl
            rcases hlvl with h | h
            · subst h
              rw [hoom] at hany
              exact absurd hany (by simp)
            · exact ihReason lvl h hany
        · simp only [hlt, if_false]
          refine ⟨?_, rfl, ?_⟩
          · intro lvl hlvl
            rw [List.mem_singleton] at hlvl
            subst hlvl
            exact Or.inl rfl
          · intro lvl hlvl hany
            rw [List.mem_singleton] at hlvl
            subst hlvl
            rw [hoom] at hany
            exact absurd hany (by simp)

open EscalationController in
/-- Witness for the amended C8: with OOM first appearing in the batch at
concurrency 2 (start 1, step 1, max 4), the run stops with terminal
reason OOM, and the recorded OOM level sits within the concurrency
bound. -/
theorem escalation_stop_properties_witness :
    ((⟨2, ["oom_killed"]⟩ : EscalationLevel).concurrency = 1
      ∨ (⟨2, ["oom_killed"]⟩ : EscalationLevel).concurrency < 4 + 1)
    ∧ (escalate (fun n => if n = 2 then ["oom_killed"] else [])
        (fun _ => false) 4 1 10 1).2 = .oom := by
  constructor
  · exact (escalation_stop_properties
      (fun n => if n = 2 then ["oom_killed"] else []) (fun _ => false) 4 1 10 1).1
      ⟨2, ["oom_killed"]⟩ (by decide)
  · exact (escalation_stop_properties
      (fun n => if n = 2 then ["oom_killed"] else []) (fun _ => false) 4 1 10 1).2.2
      ⟨2, ["oom_killed"]⟩ (by decide) (by decide)
